import Mathlib

/-!
# Verification of `pydantic_django/types.py`

Shallow embedding of the field-translation module: the `DjangoField` decision
procedure that maps an ORM field descriptor to a `(value type, field metadata)`
pair, and the `GenericIPAddressField.validate` value adapter.

Machine-level conventions of the embedding:
* Python values that can appear as a field default are modelled by `PyVal`;
  the `Ellipsis` "required, no default" sentinel used by `FieldInfo` is the
  `PyDefault.ellipsis` constructor.
* Python value types produced by the translator are modelled by the closed
  inductive `PyType` (the module supports a fixed, enumerated set of kinds).
* A call that may raise `FieldNotFoundError` is modelled with
  `Except String`, the payload being the exception message.
* The external `ipaddress` standard-library collaborator is modelled by
  executable functions transcribed from CPython `ipaddress.py`
  (`_parse_octet`, `_ip_int_from_string`, `_parse_hextet`,
  `_compress_hextets`, `_string_from_ip_int`, `_split_scope_id`); strings are
  processed as `List Char`.
-/

/-! ## Python value and type model -/

/-- A Python value usable as an ORM field default: `None`, a plain value, or a
callable (default-producing function), discriminated the way
`callable(field.default)` discriminates it. -/
inductive PyVal where
  | pyNone
  | pyInt (n : Int)
  | pyStr (s : String)
  | pyCallable (name : String)
deriving DecidableEq, Repr

/-- Truthiness of `callable(v)` for a `PyVal`. -/
def PyVal.isCallable : PyVal → Bool
  | .pyCallable _ => true
  | _ => false

/-- The `default` slot of a pydantic `FieldInfo`: either the `Ellipsis`
sentinel meaning "required, no default", or an explicit Python value
(including an explicit `None`). -/
inductive PyDefault where
  | ellipsis
  | val (v : PyVal)
deriving DecidableEq, Repr

/-- A Python value type the translator can produce (types.py lines 69-97 plus
`str`, `int`, and the `List[Dict[str, t]]` shape built on line 123). -/
inductive PyType where
  | genericIPAddressField
  | str
  | bool
  | bytes
  | date
  | datetime
  | timedelta
  | time
  | decimal
  | float
  | uuid
  | jsonUnion
  | int
  | listDict (t : PyType)
deriving DecidableEq, Repr

/-- Pydantic `FieldInfo` as constructed on types.py lines 167-174: the
positional `default`, and the keyword arguments actually passed. -/
structure FieldInfo where
  default : PyDefault
  default_factory : Option PyVal
  title : Option String
  description : Option String
  max_length : Option Nat
deriving DecidableEq, Repr

/-! ## The ORM field descriptor

The input of `DjangoField` is an ORM field object; the translator only reads
the attributes below, so the descriptor is embedded as a record of exactly
those attributes. -/

/-- An ORM field descriptor, restricted to the attributes `DjangoField`
consumes. `related_model` is the truthiness of `field.related_model`;
`model_pk_internal_type` is `field.model._meta.pk.get_internal_type()`;
`related_pk_internal_type` is
`field.related_model._meta.pk.get_internal_type()` (meaningful when a related
model exists); `mro_internal_types` lists `field_class().get_internal_type()`
for the classes in `type(field).__mro__` in order; `deconstruct_kwargs` is the
keyword-argument dict `field.deconstruct()[3]` (only the truthiness of the
`blank` and `null` entries is ever read, hence `Bool` values). -/
structure DjField where
  is_relation : Bool
  related_model : Bool
  model_pk_internal_type : String
  related_pk_internal_type : String
  concrete : Bool
  auto_created : Bool
  null : Bool
  one_to_many : Bool
  many_to_many : Bool
  internal_type : String
  mro_internal_types : List String
  max_length : Option Nat
  deconstruct_kwargs : List (String × Bool)
  has_default : Bool
  default : PyVal
  primary_key : Bool
  help_text : String
  verbose_name : String
deriving DecidableEq, Repr

/-! ## The static lookup tables (types.py lines 17-33 and 69-97) -/

/-- Integer-like internal-type names (types.py lines 17-24). -/
def INT_TYPES : List String :=
  ["AutoField", "IntegerField", "SmallIntegerField", "BigIntegerField",
   "PositiveIntegerField", "PositiveSmallIntegerField"]

/-- String-like internal-type names (types.py lines 26-33). -/
def STR_TYPES : List String :=
  ["CharField", "EmailField", "URLField", "SlugField", "TextField",
   "FilePathField"]

/-- The `FIELD_TYPES` dict (types.py lines 69-97), in source order. -/
def FIELD_TYPES : List (String × PyType) :=
  [("GenericIPAddressField", .genericIPAddressField),
   ("TextField", .str),
   ("BooleanField", .bool),
   ("BinaryField", .bytes),
   ("DateField", .date),
   ("DateTimeField", .datetime),
   ("DurationField", .timedelta),
   ("TimeField", .time),
   ("DecimalField", .decimal),
   ("FloatField", .float),
   ("UUIDField", .uuid),
   ("JSONField", .jsonUnion)]

/-- Association-list lookup, modelling Python dict access on `FIELD_TYPES`
(each key occurs once, so first-match lookup is dict lookup). -/
def assocLookup (name : String) : List (String × PyType) → Option PyType
  | [] => none
  | (k, v) :: rest => if k = name then some v else assocLookup name rest

/-- The dict lookup `FIELD_TYPES[name]` / `name in FIELD_TYPES` /
`FIELD_TYPES.get(name, d)` (the latter via `Option.getD`). -/
def fieldTypesGet (name : String) : Option PyType :=
  assocLookup name FIELD_TYPES

/-! ## The `DjangoField` translator (types.py lines 100-175) -/

/-- Relation branch, lines 111-115: the internal type of the relevant primary
key — the owning model's own primary key when there is no related model, else
the related model's primary key. -/
def relationInternalType (f : DjField) : String :=
  if !f.related_model then f.model_pk_internal_type
  else f.related_pk_internal_type

/-- Relation branch, lines 110-119: the default value. The adjustments on
lines 116-119 sit inside the `else` arm of `if not field.related_model`, so
they run only when a related model exists; otherwise the initial `Ellipsis`
from line 101 survives. -/
def relationDefault (f : DjField) : PyDefault :=
  if f.related_model then
    if !f.concrete && f.auto_created then .val .pyNone
    else if f.null then .val .pyNone
    else .ellipsis
  else .ellipsis

/-- Relation branch, line 121: `FIELD_TYPES.get(internal_type, int)`. -/
def relationPkType (f : DjField) : PyType :=
  (fieldTypesGet (relationInternalType f)).getD .int

/-- Relation branch, lines 122-125: cardinality shaping of the value type. -/
def relationPythonType (f : DjField) : PyType :=
  if f.one_to_many || f.many_to_many then .listDict (relationPkType f)
  else relationPkType f

/-- Scalar branch, lines 141-145: walk `type(field).__mro__`, taking the first
ancestor whose own reported internal type is a key of `FIELD_TYPES`. -/
def mroLookup : List String → Option PyType
  | [] => none
  | t :: rest =>
    match fieldTypesGet t with
    | some ty => some ty
    | none => mroLookup rest

/-- Scalar branch, lines 131-145: resolve the value type by string-group
membership, integer-group membership, direct table lookup, then the ancestry
walk; `none` means the Python local `python_type` stayed `None`. -/
def scalarPythonType (f : DjField) : Option PyType :=
  if f.internal_type ∈ STR_TYPES then some .str
  else if f.internal_type ∈ INT_TYPES then some .int
  else
    match fieldTypesGet f.internal_type with
    | some ty => some ty
    | none => mroLookup f.mro_internal_types

/-- Scalar branch: `max_length` is assigned only on the string-group arm
(line 134); elsewhere the initial `None` from line 105 survives. -/
def scalarMaxLength (f : DjField) : Option Nat :=
  if f.internal_type ∈ STR_TYPES then f.max_length else none

/-- Lines 152-153: `field_options.pop(key, False)` on the deconstructed
keyword arguments — the stored value of the first matching key, else
`False`. -/
def kwargsPop (key : String) : List (String × Bool) → Bool
  | [] => false
  | (k, v) :: rest => if k = key then v else kwargsPop key rest

/-- Scalar branch, lines 150-160: the `(default, default_factory)` pair.
Priority: an explicit default (callable recorded as the factory, otherwise as
the concrete default), then the primary-key / `blank` / `null` forcing to
`None`, else the `Ellipsis` sentinel. -/
def scalarDefaultPair (f : DjField) : PyDefault × Option PyVal :=
  if f.has_default then
    if f.default.isCallable then (.ellipsis, some f.default)
    else (.val f.default, none)
  else if f.primary_key || kwargsPop "blank" f.deconstruct_kwargs ||
          kwargsPop "null" f.deconstruct_kwargs then (.val .pyNone, none)
  else (.ellipsis, none)

/-- ASCII model of Python `str.title()` (line 163): alphabetic characters are
uppercased at a word start and lowercased otherwise. -/
def pyTitleAux : List Char → Bool → List Char
  | [], _ => []
  | c :: cs, prevCased =>
    if c.isAlpha then
      (if prevCased then c.toLower else c.toUpper) :: pyTitleAux cs true
    else c :: pyTitleAux cs false

/-- Python `s.title()` on `field.verbose_name`. -/
def pyTitle (s : String) : String := String.mk (pyTitleAux s.toList false)

/-- Embedding of `DjangoField(field)` (types.py lines 100-175).

The result is `Except.error msg` when the function raises
`FieldNotFoundError(msg)` (line 148), else `Except.ok` of the returned
`(python_type, FieldInfo(...))` pair.

On the relation branch the source rebinds its local variable `field` to
`field.target_field` when a related model exists (lines 127-128); no later
statement on that path reads `field` again (title and description are left
`None` there), so the rebinding does not affect the returned value and is not
represented. -/
def DjangoField (f : DjField) : Except String (PyType × FieldInfo) :=
  if f.is_relation then
    .ok (relationPythonType f,
      { default := relationDefault f
        default_factory := none
        title := none
        description := none
        max_length := none })
  else
    match scalarPythonType f with
    | none => .error ("Could not find " ++ f.internal_type)
    | some ty =>
      .ok (ty,
        { default := (scalarDefaultPair f).1
          default_factory := (scalarDefaultPair f).2
          title := some (pyTitle f.verbose_name)
          description := some f.help_text
          max_length := scalarMaxLength f })

/-! ## Model of the external `ipaddress` collaborator

Transcribed from CPython `ipaddress.py` (the behavior the source relies on
through `IPv4Address`, `IPv6Address` and their `str(...)` forms). Parse
failures (`AddressValueError`, a `ValueError`) are `none`. -/

/-- Python `str.split(sep)` for a one-character separator, on char lists
(so `splitOnChar c []` is `[[]]`, like `"".split(sep)` giving one empty
part). -/
def splitOnChar (c : Char) : List Char → List (List Char)
  | [] => [[]]
  | x :: xs =>
    let r := splitOnChar c xs
    if x = c then [] :: r
    else
      match r with
      | [] => [[x]]
      | y :: ys => (x :: y) :: ys

/-- Python `sep.join(parts)` for a one-character separator. -/
def joinWithChar (c : Char) : List (List Char) → List Char
  | [] => []
  | [x] => x
  | x :: y :: ys => x ++ c :: joinWithChar c (y :: ys)

/-- ASCII decimal digit test. -/
def isAsciiDigit (c : Char) : Bool := '0' ≤ c && c ≤ '9'

/-- Decimal digits to a number (callers have checked `isAsciiDigit`). -/
def digitsToNat (cs : List Char) : Nat :=
  cs.foldl (fun a c => a * 10 + (c.toNat - 48)) 0

/-- CPython `_BaseV4._parse_octet`: a non-empty, all-decimal string of at most
3 characters, without leading zeros, whose value is at most 255. -/
def parseOctet (cs : List Char) : Option Nat :=
  if cs.isEmpty then none
  else if !cs.all isAsciiDigit then none
  else if cs.length > 3 then none
  else if cs ≠ ['0'] && cs.head? = some '0' then none
  else
    let n := digitsToNat cs
    if n > 255 then none else some n

/-- CPython `_BaseV4._ip_int_from_string`: reject empty input, split on `.`,
require exactly 4 octets, and assemble them big-endian. -/
def ipv4IntFromString (cs : List Char) : Option Nat :=
  if cs.isEmpty then none
  else
    match splitOnChar '.' cs with
    | [a, b, c, d] =>
      match parseOctet a, parseOctet b, parseOctet c, parseOctet d with
      | some w, some x, some y, some z =>
        some (((w * 256 + x) * 256 + y) * 256 + z)
      | _, _, _, _ => none
    | _ => none

/-- CPython `_BaseV4._string_from_ip_int`: dotted decimal. -/
def ipv4StringFromInt (n : Nat) : List Char :=
  joinWithChar '.'
    [Nat.toDigits 10 (n / 16777216 % 256), Nat.toDigits 10 (n / 65536 % 256),
     Nat.toDigits 10 (n / 256 % 256), Nat.toDigits 10 (n % 256)]

/-- Python `str(IPv4Address(s))` for a string argument: the constructor
rejects a `/`, parses, and `__str__` re-renders canonically. `none` models
`AddressValueError` (a `ValueError`). -/
def IPv4AddressStr (s : String) : Option String :=
  let cs := s.toList
  if cs.contains '/' then none
  else (ipv4IntFromString cs).map (fun n => String.mk (ipv4StringFromInt n))

/-- ASCII hexadecimal digit test. -/
def isHexDigitChar (c : Char) : Bool :=
  isAsciiDigit c || ('a' ≤ c && c ≤ 'f') || ('A' ≤ c && c ≤ 'F')

/-- Hexadecimal digit value. -/
def hexDigitToNat (c : Char) : Nat :=
  if isAsciiDigit c then c.toNat - 48
  else if 'a' ≤ c && c ≤ 'f' then c.toNat - 87
  else c.toNat - 55

/-- Hexadecimal digits to a number. -/
def hexToNat (cs : List Char) : Nat :=
  cs.foldl (fun a c => a * 16 + hexDigitToNat c) 0

/-- CPython `_BaseV6._parse_hextet`: all-hex, at most 4 characters, non-empty
(`int('', 16)` raises). Leading zeros are allowed here. -/
def parseHextet (cs : List Char) : Option Nat :=
  if !cs.all isHexDigitChar then none
  else if cs.length > 4 then none
  else if cs.isEmpty then none
  else some (hexToNat cs)

/-- Accumulate hextets big-endian: `acc := acc * 2^16 + hextet`. -/
def foldHextets : List (List Char) → Nat → Option Nat
  | [], acc => some acc
  | p :: rest, acc =>
    match parseHextet p with
    | none => none
    | some h => foldHextets rest (acc * 65536 + h)

/-- CPython `_BaseV6._ip_int_from_string`: split on `:`; at least 3 parts; an
IPv4-style last part is converted to two hextets; at most 9 parts; at most one
empty interior part (the `::`); leading/trailing `:` only as part of a `::`;
without a `::` exactly 8 parts; the `::` must skip at least one group. -/
def ipv6IntFromString (cs : List Char) : Option Nat :=
  if cs.isEmpty then none
  else
    let parts0 := splitOnChar ':' cs
    if parts0.length < 3 then none
    else
      let withV4 : Option (List (List Char)) :=
        match parts0.getLast? with
        | some last =>
          if last.contains '.' then
            match ipv4IntFromString last with
            | some v4 =>
              some (parts0.dropLast ++
                [Nat.toDigits 16 (v4 / 65536), Nat.toDigits 16 (v4 % 65536)])
            | none => none
          else some parts0
        | none => none
      match withV4 with
      | none => none
      | some parts =>
        if parts.length > 9 then none
        else
          let interior := (parts.drop 1).dropLast
          if 2 ≤ (interior.filter (fun p => p.isEmpty)).length then none
          else
            match interior.findIdx? (fun p => p.isEmpty) with
            | some j =>
              let skip := j + 1
              let headEmpty := parts.head? == some ([] : List Char)
              let lastEmpty := parts.getLast? == some ([] : List Char)
              let partsHi := if headEmpty then skip - 1 else skip
              let partsLo0 := parts.length - skip - 1
              let partsLo := if lastEmpty then partsLo0 - 1 else partsLo0
              if headEmpty && partsHi != 0 then none
              else if lastEmpty && partsLo != 0 then none
              else if 8 ≤ partsHi + partsLo then none
              else
                let partsSkipped := 8 - (partsHi + partsLo)
                match foldHextets (parts.take partsHi) 0 with
                | none => none
                | some hi =>
                  foldHextets (parts.drop (parts.length - partsLo))
                    (hi * 65536 ^ partsSkipped)
            | none =>
              if parts.length ≠ 8 then none
              else if parts.head? == some ([] : List Char) then none
              else if parts.getLast? == some ([] : List Char) then none
              else foldHextets parts 0

/-- The eight hextets of a 128-bit value, each rendered `%x` (lowercase, no
leading zeros), as in CPython `_BaseV6._string_from_ip_int`. -/
def ipv6HexGroups (n : Nat) : List (List Char) :=
  (List.range 8).map (fun i => Nat.toDigits 16 (n / 65536 ^ (7 - i) % 65536))

/-- The scan inside CPython `_BaseV6._compress_hextets`: the start and length
of the best (longest, leftmost on ties) run of `"0"` groups. Arguments after
the list: current index, best start, best length, current start, current
length. -/
def bestZeroRun : List (List Char) → Nat → Nat → Nat → Nat → Nat → Nat × Nat
  | [], _, bs, bl, _, _ => (bs, bl)
  | h :: rest, i, bs, bl, curs, curl =>
    if h = ['0'] then
      let curs2 := if curl = 0 then i else curs
      let curl2 := curl + 1
      if curl2 > bl then bestZeroRun rest (i + 1) curs2 curl2 curs2 curl2
      else bestZeroRun rest (i + 1) bs bl curs2 curl2
    else bestZeroRun rest (i + 1) bs bl 0 0

/-- CPython `_BaseV6._compress_hextets`: replace the best run (of length at
least 2) of `"0"` groups by an empty part, padding with empty parts at the
ends so that joining with `:` yields the `::` form. -/
def compressHextets (hextets : List (List Char)) : List (List Char) :=
  let r := bestZeroRun hextets 0 0 0 0 0
  let bs := r.1
  let bl := r.2
  if bl > 1 then
    let h1 := if bs + bl = hextets.length then hextets ++ [[]] else hextets
    let h2 := h1.take bs ++ [[]] ++ h1.drop (bs + bl)
    if bs = 0 then [] :: h2 else h2
  else hextets

/-- CPython `_BaseV6._string_from_ip_int`: compressed colon-hex rendering. -/
def ipv6StringFromInt (n : Nat) : List Char :=
  joinWithChar ':' (compressHextets (ipv6HexGroups n))

/-- CPython `IPv6Address._split_scope_id`: split at the first `%`; a present
but empty scope, or a scope containing another `%`, is an error. -/
def splitScopeId (cs : List Char) : Option (List Char × Option (List Char)) :=
  match splitOnChar '%' cs with
  | [a] => some (a, none)
  | [a, sc] => if sc.isEmpty then none else some (a, some sc)
  | _ => none

/-- Python `str(IPv6Address(s))` for a string argument: the constructor
rejects a `/`, splits off a scope id, parses, and `__str__` renders the
compressed form with the scope id re-attached. `none` models
`AddressValueError` (a `ValueError`). -/
def IPv6AddressStr (s : String) : Option String :=
  let cs := s.toList
  if cs.contains '/' then none
  else
    match splitScopeId cs with
    | none => none
    | some (addr, scope) =>
      (ipv6IntFromString addr).map (fun n =>
        match scope with
        | some sc => String.mk (ipv6StringFromInt n ++ '%' :: sc)
        | none => String.mk (ipv6StringFromInt n))

/-! ## The `GenericIPAddressField` value adapter (types.py lines 36-66) -/

/-- The pydantic address errors the adapter can raise (types.py lines 54, 60,
66): the generic, ipv4-specific and ipv6-specific invalid-address errors. -/
inductive PydanticAddressError where
  | ipvAnyAddressError
  | ipv4AddressError
  | ipv6AddressError
deriving DecidableEq, Repr

/-- Outcome of a Python call: a returned string value, a raised `ValueError`,
or a raised `TypeError`. -/
inductive PyCallResult where
  | val (s : String)
  | valueError
  | typeError
deriving DecidableEq, Repr

/-- Model of evaluating `str(IPvAnyAddress(v))` (types.py line 52) against
pydantic v1. `pydantic.networks.IPvAnyAddress` subclasses
`ipaddress._BaseAddress` and defines neither `__init__` nor `__new__`, so
instantiating it with an argument hits `object.__new__` with an excess
argument and raises `TypeError` (not a `ValueError`) for every input; the
class only parses addresses through its `validate` classmethod, which line 52
does not call. -/
def strIPvAnyAddress (_v : String) : PyCallResult := .typeError

/-- Outcome of `GenericIPAddressField.validate`: a returned normalized
string, a raised pydantic address error, an uncaught `TypeError` propagating
out, or the implicit `return None` when no `if` matches. -/
inductive ValidateResult where
  | ok (s : String)
  | raised (e : PydanticAddressError)
  | typeError
  | noneReturn
deriving DecidableEq, Repr

namespace GenericIPAddressField

/-- Embedding of `GenericIPAddressField.validate` (types.py lines 48-66).
`protocol` is the class attribute of line 38 (`Optional[str]`, defaulting to
`some "both"`); `v` is the value under validation, taken here as a string.
Each branch wraps its parse in `try ... except ValueError`, so only a
`ValueError` becomes the corresponding pydantic error; the `TypeError` from
line 52 escapes, and a protocol matching no branch falls through to the
implicit `return None`. -/
def validate (protocol : Option String) (v : String) : ValidateResult :=
  if protocol = some "both" then
    match strIPvAnyAddress v with
    | .val s => .ok s
    | .valueError => .raised .ipvAnyAddressError
    | .typeError => .typeError
  else if protocol = some "ipv4" then
    match IPv4AddressStr v with
    | some s => .ok s
    | none => .raised .ipv4AddressError
  else if protocol = some "ipv6" then
    match IPv6AddressStr v with
    | some s => .ok s
    | none => .raised .ipv6AddressError
  else .noneReturn

end GenericIPAddressField

/-! ### Sanity checks of the `ipaddress` model

Each equation below reproduces an observation of CPython 3.11
(`str(IPv4Address(s))`, `str(IPv6Address(s))`, or the `AddressValueError`
they raise). -/

example : IPv4AddressStr "1.2.3.4" = some "1.2.3.4" := by decide
example : IPv4AddressStr "0.0.0.0" = some "0.0.0.0" := by decide
example : IPv4AddressStr "255.255.255.255" = some "255.255.255.255" := by decide
example : IPv4AddressStr "192.168.0.1" = some "192.168.0.1" := by decide
example : IPv4AddressStr "256.1.1.1" = none := by decide
example : IPv4AddressStr "1.2.3" = none := by decide
example : IPv4AddressStr "1.2.3.4.5" = none := by decide
example : IPv4AddressStr "01.2.3.4" = none := by decide
example : IPv4AddressStr "1.2.3.4/24" = none := by decide
example : IPv4AddressStr "" = none := by decide
example : IPv4AddressStr "1.2.3.x" = none := by decide
example : IPv4AddressStr "1..2.3" = none := by decide

example : IPv6AddressStr "::1" = some "::1" := by decide
example : IPv6AddressStr "::" = some "::" := by decide
example : IPv6AddressStr "1::2" = some "1::2" := by decide
example : IPv6AddressStr "2001:0DB8:0:0:1:0:0:1" = some "2001:db8::1:0:0:1" := by decide
example : IPv6AddressStr "2001:db8::8a2e:370:7334" = some "2001:db8::8a2e:370:7334" := by decide
example : IPv6AddressStr "::ffff:1.2.3.4" = some "::ffff:102:304" := by decide
example : IPv6AddressStr "fe80::1%eth0" = some "fe80::1%eth0" := by decide
example : IPv6AddressStr "1:2:3:4:5:6:7:8" = some "1:2:3:4:5:6:7:8" := by decide
example : IPv6AddressStr "0:0:0:0:0:0:0:0" = some "::" := by decide
example : IPv6AddressStr "1:0:0:0:0:0:0:0" = some "1::" := by decide
example : IPv6AddressStr "::1.2.3.4" = some "::102:304" := by decide
example : IPv6AddressStr ":::" = none := by decide
example : IPv6AddressStr "1::2::3" = none := by decide
example : IPv6AddressStr "::1%" = none := by decide
example : IPv6AddressStr "::1%a%b" = none := by decide
example : IPv6AddressStr "1:2:3" = none := by decide
example : IPv6AddressStr "12345::" = none := by decide
example : IPv6AddressStr "::g" = none := by decide
example : IPv6AddressStr "1:2:3:4:5:6:7:8:9" = none := by decide
example : IPv6AddressStr ":1::" = none := by decide
example : IPv6AddressStr "::1/64" = none := by decide
example : IPv6AddressStr "1:2:3:4:5:6:7" = none := by decide
example : IPv6AddressStr "" = none := by decide
example : IPv6AddressStr ":" = none := by decide
example : IPv6AddressStr "::ffff:256.1.1.1" = none := by decide

/-! ## Inversion helpers for `DjangoField` -/

/-- On the relation branch `DjangoField` always succeeds, returning the shaped
value type and a metadata record whose only populated slot is the default. -/
theorem DjangoField_relation_ok (f : DjField) (h : f.is_relation = true) :
    DjangoField f =
      Except.ok (relationPythonType f,
        { default := relationDefault f
          default_factory := none
          title := none
          description := none
          max_length := none }) := by
  unfold DjangoField
  rw [h]
  simp

/-- On the scalar branch a successful `DjangoField` run determines the value
type via `scalarPythonType` and each metadata slot via its helper. -/
theorem DjangoField_scalar_ok (f : DjField) (ty : PyType) (info : FieldInfo)
    (hrel : f.is_relation = false) (hok : DjangoField f = Except.ok (ty, info)) :
    scalarPythonType f = some ty ∧
    info = { default := (scalarDefaultPair f).1
             default_factory := (scalarDefaultPair f).2
             title := some (pyTitle f.verbose_name)
             description := some f.help_text
             max_length := scalarMaxLength f } := by
  unfold DjangoField at hok
  rw [hrel] at hok
  simp only [Bool.false_eq_true, if_false] at hok
  cases hpt : scalarPythonType f with
  | none =>
    rw [hpt] at hok
    exact absurd hok (by simp)
  | some pt =>
    rw [hpt] at hok
    simp only [Except.ok.injEq, Prod.mk.injEq] at hok
    obtain ⟨h1, h2⟩ := hok
    subst h1
    exact ⟨rfl, h2.symm⟩

/-! ## Concrete field descriptors used in witnesses and counterexamples -/

/-- A baseline descriptor with every flag off; the concrete fields below
override the attributes they exercise. -/
def baseField : DjField :=
  { is_relation := false
    related_model := false
    model_pk_internal_type := "AutoField"
    related_pk_internal_type := "AutoField"
    concrete := true
    auto_created := false
    null := false
    one_to_many := false
    many_to_many := false
    internal_type := "IntegerField"
    mro_internal_types := []
    max_length := none
    deconstruct_kwargs := []
    has_default := false
    default := .pyNone
    primary_key := false
    help_text := ""
    verbose_name := "field" }

/-- A custom geometry column: unknown internal type, and no ancestor reports
a mapped internal type either. -/
def unknownScalarField : DjField :=
  { baseField with
      internal_type := "GeometryField"
      mro_internal_types := ["GeometryField", "Field"]
      verbose_name := "geom" }

/-- A nullable relation field whose `related_model` attribute is falsy. -/
def noRelatedModelField : DjField :=
  { baseField with
      is_relation := true
      related_model := false
      null := true
      internal_type := "ForeignKey" }

/-- A reverse accessor: relation, related model present, auto-created and not
concrete. -/
def reverseRelationField : DjField :=
  { baseField with
      is_relation := true
      related_model := true
      concrete := false
      auto_created := true
      one_to_many := true
      internal_type := "ForeignKey" }

/-- A primary-key integer column with no explicit default and not nullable. -/
def pkIntegerField : DjField :=
  { baseField with
      internal_type := "IntegerField"
      primary_key := true
      verbose_name := "id" }

/-- A concrete relation whose related model has an unmapped `BigAutoField`
primary key. -/
def bigAutoRelatedField : DjField :=
  { baseField with
      is_relation := true
      related_model := true
      related_pk_internal_type := "BigAutoField"
      internal_type := "ForeignKey" }

/-- A one-to-many (reverse foreign-key) relation whose related model has an
`AutoField` primary key. -/
def oneToManyAutoField : DjField :=
  { baseField with
      is_relation := true
      related_model := true
      related_pk_internal_type := "AutoField"
      concrete := false
      auto_created := true
      one_to_many := true
      internal_type := "ForeignKey" }

/-- A text column declaring a maximum length. -/
def textScalarField : DjField :=
  { baseField with
      internal_type := "TextField"
      max_length := some 100
      verbose_name := "body" }

/-- A datetime column with a callable default. -/
def callableDefaultField : DjField :=
  { baseField with
      internal_type := "DateTimeField"
      has_default := true
      default := .pyCallable "now"
      verbose_name := "created" }

/-- A nullable relation field that also declares a maximum length. -/
def relationMaxLengthField : DjField :=
  { baseField with
      is_relation := true
      related_model := true
      null := true
      max_length := some 50
      internal_type := "ForeignKey" }

/-! ## Claim C1 -/

/-- Helper: the ancestry walk yields nothing when no ancestor reports an
internal-type name that is a key of `FIELD_TYPES`. -/
theorem mroLookup_eq_none (l : List String)
    (h : ∀ t ∈ l, fieldTypesGet t = none) : mroLookup l = none := by
  induction l with
  | nil => rfl
  | cons t rest ih =>
    simp only [mroLookup]
    rw [h t (List.mem_cons_self t rest)]
    exact ih fun x hx => h x (List.mem_cons_of_mem t hx)

/-- C1: for a scalar (non-relation) field whose internal-type name is in
neither the string-like group nor the integer-like group nor the keys of the
mapping table, and none of whose type ancestors reports a table key,
`DjangoField` raises exactly `FieldNotFoundError` with a message naming the
unresolved internal-type name, and no other error. -/
theorem C1_unknown_scalar_type_raises (f : DjField)
    (hrel : f.is_relation = false)
    (hstr : f.internal_type ∉ STR_TYPES)
    (hint : f.internal_type ∉ INT_TYPES)
    (htab : fieldTypesGet f.internal_type = none)
    (hmro : ∀ t ∈ f.mro_internal_types, fieldTypesGet t = none) :
    DjangoField f = Except.error ("Could not find " ++ f.internal_type) := by
  have hspt : scalarPythonType f = none := by
    unfold scalarPythonType
    rw [if_neg hstr, if_neg hint, htab]
    exact mroLookup_eq_none f.mro_internal_types hmro
  unfold DjangoField
  rw [hrel]
  simp only [Bool.false_eq_true, if_false, hspt]

/-- Witness for C1 at the concrete `unknownScalarField`. -/
theorem C1_witness :
    (unknownScalarField.is_relation = false ∧
     unknownScalarField.internal_type ∉ STR_TYPES ∧
     unknownScalarField.internal_type ∉ INT_TYPES ∧
     fieldTypesGet unknownScalarField.internal_type = none) ∧
    DjangoField unknownScalarField = Except.error "Could not find GeometryField" :=
  ⟨⟨rfl, by decide, by decide, rfl⟩,
   C1_unknown_scalar_type_raises unknownScalarField rfl (by decide) (by decide) rfl
     (by decide)⟩

/-! ## Claim C2 -/

/-- C2 counterexample: `noRelatedModelField` is a relation field, nullable,
and not a non-concrete auto-created accessor, yet its translated default is
the required sentinel, not `None`: the default adjustments run only when a
related model exists. -/
theorem C2_counterexample :
    noRelatedModelField.is_relation = true ∧
    noRelatedModelField.null = true ∧
    noRelatedModelField.related_model = false ∧
    DjangoField noRelatedModelField =
      Except.ok (PyType.int,
        { default := PyDefault.ellipsis
          default_factory := none
          title := none
          description := none
          max_length := none }) ∧
    PyDefault.ellipsis ≠ PyDefault.val PyVal.pyNone :=
  ⟨rfl, rfl, rfl, rfl, by decide⟩

/-- C2 (amended): for a relation field with a related model the default is
`None` when the field is non-concrete and auto-created, else `None` when
nullable, else the required sentinel; for a relation field without a related
model the default is always the required sentinel. -/
theorem C2_amended_relation_default_policy (f : DjField) (ty : PyType)
    (info : FieldInfo) (h : f.is_relation = true)
    (hok : DjangoField f = Except.ok (ty, info)) :
    (f.related_model = true →
      ((f.concrete = false ∧ f.auto_created = true) →
          info.default = PyDefault.val PyVal.pyNone) ∧
      (¬(f.concrete = false ∧ f.auto_created = true) → f.null = true →
          info.default = PyDefault.val PyVal.pyNone) ∧
      (¬(f.concrete = false ∧ f.auto_created = true) → f.null = false →
          info.default = PyDefault.ellipsis)) ∧
    (f.related_model = false → info.default = PyDefault.ellipsis) := by
  rw [DjangoField_relation_ok f h] at hok
  simp only [Except.ok.injEq, Prod.mk.injEq] at hok
  obtain ⟨-, hinfo⟩ := hok
  subst hinfo
  cases hrm : f.related_model with
  | false => simp [relationDefault, hrm]
  | true =>
    cases hc : f.concrete <;> cases ha : f.auto_created <;> cases hn : f.null <;>
      simp [relationDefault, hrm, hc, ha, hn]

/-- Witness for the amended C2 at the concrete `reverseRelationField`. -/
theorem C2_amended_witness :
    (reverseRelationField.is_relation = true ∧
     reverseRelationField.related_model = true ∧
     reverseRelationField.concrete = false ∧
     reverseRelationField.auto_created = true) ∧
    ({ default := PyDefault.val PyVal.pyNone
       default_factory := none
       title := none
       description := none
       max_length := none } : FieldInfo).default = PyDefault.val PyVal.pyNone :=
  ⟨⟨rfl, rfl, rfl, rfl⟩,
   ((C2_amended_relation_default_policy reverseRelationField
       (PyType.listDict PyType.int)
       { default := PyDefault.val PyVal.pyNone
         default_factory := none
         title := none
         description := none
         max_length := none } rfl rfl).1 rfl).1 ⟨rfl, rfl⟩⟩

/-! ## Claim C3 -/

/-- C3: for every scalar field that resolves to a value type, the default is
decided in priority order — an explicit callable default becomes the factory
(default stays required), an explicit non-callable default (even `None`)
becomes the concrete default, else primary-key / `blank` / `null` force
`None`, else the default stays the required sentinel. -/
theorem C3_scalar_default_policy (f : DjField) (ty : PyType) (info : FieldInfo)
    (hrel : f.is_relation = false)
    (hok : DjangoField f = Except.ok (ty, info)) :
    (f.has_default = true → f.default.isCallable = true →
        info.default_factory = some f.default ∧
        info.default = PyDefault.ellipsis) ∧
    (f.has_default = true → f.default.isCallable = false →
        info.default = PyDefault.val f.default ∧
        info.default ≠ PyDefault.ellipsis ∧ info.default_factory = none) ∧
    (f.has_default = false →
        (f.primary_key = true ∨ kwargsPop "blank" f.deconstruct_kwargs = true ∨
         kwargsPop "null" f.deconstruct_kwargs = true) →
        info.default = PyDefault.val PyVal.pyNone ∧
        info.default_factory = none) ∧
    (f.has_default = false → f.primary_key = false →
        kwargsPop "blank" f.deconstruct_kwargs = false →
        kwargsPop "null" f.deconstruct_kwargs = false →
        info.default = PyDefault.ellipsis ∧ info.default_factory = none) := by
  obtain ⟨-, hinfo⟩ := DjangoField_scalar_ok f ty info hrel hok
  subst hinfo
  cases hhd : f.has_default <;>
    cases hcall : f.default.isCallable <;>
    cases hpk : f.primary_key <;>
    cases hb : kwargsPop "blank" f.deconstruct_kwargs <;>
    cases hn : kwargsPop "null" f.deconstruct_kwargs <;>
    simp [scalarDefaultPair, hhd, hcall, hpk, hb, hn]

/-- Witness for C3 at the concrete `pkIntegerField`: a primary-key scalar
field with no explicit default and not nullable gets default `None`. -/
theorem C3_witness :
    (pkIntegerField.is_relation = false ∧ pkIntegerField.has_default = false ∧
     pkIntegerField.primary_key = true ∧ pkIntegerField.null = false) ∧
    ({ default := PyDefault.val PyVal.pyNone
       default_factory := none
       title := some "Id"
       description := some ""
       max_length := none } : FieldInfo).default = PyDefault.val PyVal.pyNone :=
  ⟨⟨rfl, rfl, rfl, rfl⟩,
   ((C3_scalar_default_policy pkIntegerField PyType.int
       { default := PyDefault.val PyVal.pyNone
         default_factory := none
         title := some "Id"
         description := some ""
         max_length := none } rfl rfl).2.2.1 rfl (Or.inl rfl)).1⟩

/-! ## Claim C4 -/

/-- Helper: the primary-key internal type the relation branch consults is the
related model's when one exists, else the owning model's own. -/
theorem relationInternalType_eq (f : DjField) :
    relationInternalType f =
      (if f.related_model = true then f.related_pk_internal_type
       else f.model_pk_internal_type) := by
  unfold relationInternalType
  cases f.related_model <;> simp

/-- C4: for every relation field `DjangoField` never raises: the relevant
primary key's internal-type name (related model's primary key when present,
else the owning model's) is looked up in the mapping table, and a name not
found there resolves to the integer type. -/
theorem C4_relation_never_fails (f : DjField) (h : f.is_relation = true) :
    (∃ ty info, DjangoField f = Except.ok (ty, info)) ∧
    (∀ t, fieldTypesGet (if f.related_model = true then
            f.related_pk_internal_type else f.model_pk_internal_type) = some t →
        relationPkType f = t) ∧
    (fieldTypesGet (if f.related_model = true then
            f.related_pk_internal_type else f.model_pk_internal_type) = none →
        relationPkType f = PyType.int) := by
  refine ⟨⟨_, _, DjangoField_relation_ok f h⟩, ?_, ?_⟩
  · intro t ht
    unfold relationPkType
    rw [relationInternalType_eq, ht]
    rfl
  · intro ht
    unfold relationPkType
    rw [relationInternalType_eq, ht]
    rfl

/-- Witness for C4 at the concrete `bigAutoRelatedField`: an unmapped related
primary-key kind resolves to the integer type, with no error. -/
theorem C4_witness :
    (bigAutoRelatedField.is_relation = true ∧
     fieldTypesGet "BigAutoField" = none) ∧
    relationPkType bigAutoRelatedField = PyType.int ∧
    (∃ ty info, DjangoField bigAutoRelatedField = Except.ok (ty, info)) :=
  ⟨⟨rfl, rfl⟩,
   (C4_relation_never_fails bigAutoRelatedField rfl).2.2 rfl,
   (C4_relation_never_fails bigAutoRelatedField rfl).1⟩

/-! ## Claim C5 -/

/-- C5: for a one-to-many or many-to-many relation field the resolved value
type is a list of string-keyed dicts over the resolved primary-key type, and
for every other relation field it is the primary-key type itself. -/
theorem C5_relation_cardinality (f : DjField) (h : f.is_relation = true) :
    ((f.one_to_many = true ∨ f.many_to_many = true) →
      ∃ info, DjangoField f =
        Except.ok (PyType.listDict (relationPkType f), info)) ∧
    (f.one_to_many = false → f.many_to_many = false →
      ∃ info, DjangoField f = Except.ok (relationPkType f, info)) := by
  constructor
  · intro hcard
    refine ⟨{ default := relationDefault f
              default_factory := none
              title := none
              description := none
              max_length := none }, ?_⟩
    rw [DjangoField_relation_ok f h]
    have hty : relationPythonType f = PyType.listDict (relationPkType f) := by
      unfold relationPythonType
      rcases hcard with h1 | h1 <;> rw [h1] <;> simp
    rw [hty]
  · intro ho hm
    refine ⟨{ default := relationDefault f
              default_factory := none
              title := none
              description := none
              max_length := none }, ?_⟩
    rw [DjangoField_relation_ok f h]
    have hty : relationPythonType f = relationPkType f := by
      unfold relationPythonType
      rw [ho, hm]
      simp
    rw [hty]

/-- Witness for C5 at the concrete `oneToManyAutoField`: a one-to-many
relation with an integer-kind related primary key yields a list of
string-keyed dicts over the integer type. -/
theorem C5_witness :
    (oneToManyAutoField.is_relation = true ∧
     oneToManyAutoField.one_to_many = true ∧
     relationPkType oneToManyAutoField = PyType.int) ∧
    (∃ info, DjangoField oneToManyAutoField =
      Except.ok (PyType.listDict PyType.int, info)) :=
  ⟨⟨rfl, rfl, rfl⟩,
   (C5_relation_cardinality oneToManyAutoField rfl).1 (Or.inl rfl)⟩

/-! ## Claim C6 -/

/-- C6: for a scalar field whose internal-type name is in the string-like
group the translation succeeds with value type string and `max_length` equal
to the field's declared maximum length (group membership is checked before
the mapping table, so this covers `TextField` as well). -/
theorem C6_string_group_scalar (f : DjField) (hrel : f.is_relation = false)
    (hs : f.internal_type ∈ STR_TYPES) :
    ∃ info, DjangoField f = Except.ok (PyType.str, info) ∧
      info.max_length = f.max_length := by
  refine ⟨{ default := (scalarDefaultPair f).1
            default_factory := (scalarDefaultPair f).2
            title := some (pyTitle f.verbose_name)
            description := some f.help_text
            max_length := scalarMaxLength f }, ?_, ?_⟩
  · have hspt : scalarPythonType f = some .str := by
      unfold scalarPythonType
      rw [if_pos hs]
    unfold DjangoField
    rw [hrel]
    simp only [Bool.false_eq_true, if_false, hspt]
  · show scalarMaxLength f = f.max_length
    unfold scalarMaxLength
    rw [if_pos hs]

/-- Witness for C6 at the concrete `textScalarField`: `TextField` is in both
the string-like group and the mapping table; the group wins and the declared
maximum length is captured. -/
theorem C6_witness :
    (textScalarField.is_relation = false ∧
     textScalarField.internal_type = "TextField" ∧
     "TextField" ∈ STR_TYPES ∧
     fieldTypesGet "TextField" = some PyType.str ∧
     textScalarField.max_length = some 100) ∧
    (∃ info, DjangoField textScalarField = Except.ok (PyType.str, info) ∧
      info.max_length = some 100) :=
  ⟨⟨rfl, rfl, by decide, rfl, rfl⟩,
   C6_string_group_scalar textScalarField rfl (by decide)⟩

/-! ## Claim C7 -/

/-- C7 evaluation: the ipv4 branch behaves as claimed on the claim's concrete
inputs, and the ipv6 branch canonicalizes correctly; but with protocol
`both`, line 52 instantiates pydantic's `IPvAnyAddress`, which has no
`__init__`, so a `TypeError` (not caught by `except ValueError`) propagates
for every input — in particular the valid literal `::1` does not come back
normalized and no pydantic address error is raised. -/
theorem C7_both_branch_type_error :
    GenericIPAddressField.validate (some "ipv4") "1.2.3.4" =
      ValidateResult.ok "1.2.3.4" ∧
    GenericIPAddressField.validate (some "ipv4") "256.1.1.1" =
      ValidateResult.raised PydanticAddressError.ipv4AddressError ∧
    GenericIPAddressField.validate (some "ipv6") "::1" =
      ValidateResult.ok "::1" ∧
    GenericIPAddressField.validate (some "ipv6") "256.1.1.1" =
      ValidateResult.raised PydanticAddressError.ipv6AddressError ∧
    GenericIPAddressField.validate (some "both") "::1" =
      ValidateResult.typeError ∧
    GenericIPAddressField.validate (some "both") "1.2.3.4" =
      ValidateResult.typeError ∧
    GenericIPAddressField.validate (some "both") "not an address" =
      ValidateResult.typeError := by
  decide

/-! ## Claim C8 -/

/-- Helper: the scalar default computation never populates both the concrete
default and the factory. -/
theorem scalarDefaultPair_exclusive (f : DjField) :
    ((scalarDefaultPair f).2 ≠ none →
      (scalarDefaultPair f).1 = PyDefault.ellipsis) ∧
    ((scalarDefaultPair f).1 ≠ PyDefault.ellipsis →
      (scalarDefaultPair f).2 = none) := by
  cases hhd : f.has_default <;>
    cases hcall : f.default.isCallable <;>
    cases hpk : f.primary_key <;>
    cases hb : kwargsPop "blank" f.deconstruct_kwargs <;>
    cases hn : kwargsPop "null" f.deconstruct_kwargs <;>
    simp [scalarDefaultPair, hhd, hcall, hpk, hb, hn]

/-- C8: whenever `DjangoField` returns, the metadata never carries both a
concrete default and a default factory — a set factory forces the required
sentinel as default, and a concrete default (explicit `None` included) forces
an unset factory. -/
theorem C8_default_factory_exclusive (f : DjField) (ty : PyType)
    (info : FieldInfo) (hok : DjangoField f = Except.ok (ty, info)) :
    (info.default_factory ≠ none → info.default = PyDefault.ellipsis) ∧
    (info.default ≠ PyDefault.ellipsis → info.default_factory = none) := by
  cases hrel : f.is_relation with
  | true =>
    rw [DjangoField_relation_ok f hrel] at hok
    simp only [Except.ok.injEq, Prod.mk.injEq] at hok
    obtain ⟨-, hinfo⟩ := hok
    subst hinfo
    simp
  | false =>
    obtain ⟨-, hinfo⟩ := DjangoField_scalar_ok f ty info hrel hok
    subst hinfo
    exact scalarDefaultPair_exclusive f

/-- Witness for C8 at the concrete `callableDefaultField`: the factory is
populated and the default is the required sentinel. -/
theorem C8_witness :
    (callableDefaultField.has_default = true ∧
     callableDefaultField.default.isCallable = true) ∧
    (({ default := PyDefault.ellipsis
        default_factory := some (PyVal.pyCallable "now")
        title := some "Created"
        description := some ""
        max_length := none } : FieldInfo).default_factory ≠ none →
      ({ default := PyDefault.ellipsis
         default_factory := some (PyVal.pyCallable "now")
         title := some "Created"
         description := some ""
         max_length := none } : FieldInfo).default = PyDefault.ellipsis) :=
  ⟨⟨rfl, rfl⟩,
   (C8_default_factory_exclusive callableDefaultField PyType.datetime
     { default := PyDefault.ellipsis
       default_factory := some (PyVal.pyCallable "now")
       title := some "Created"
       description := some ""
       max_length := none } rfl).1⟩

/-! ## Claim C9 -/

/-- C9: with any protocol tag other than `both`, `ipv4` or `ipv6` (including
`None`), `validate` falls through every branch and implicitly returns `None`
— no error raised, no normalized string returned. -/
theorem C9_unknown_protocol_returns_none (p : Option String) (v : String)
    (h1 : p ≠ some "both") (h2 : p ≠ some "ipv4") (h3 : p ≠ some "ipv6") :
    GenericIPAddressField.validate p v = ValidateResult.noneReturn := by
  unfold GenericIPAddressField.validate
  rw [if_neg h1, if_neg h2, if_neg h3]

/-- Witness for C9 at the concrete protocol `none` and a valid address
string. -/
theorem C9_witness :
    ((none : Option String) ≠ some "both" ∧
     (none : Option String) ≠ some "ipv4" ∧
     (none : Option String) ≠ some "ipv6") ∧
    GenericIPAddressField.validate none "1.2.3.4" = ValidateResult.noneReturn :=
  ⟨⟨by decide, by decide, by decide⟩,
   C9_unknown_protocol_returns_none none "1.2.3.4" (by decide) (by decide)
     (by decide)⟩

/-! ## Claim C10 -/

/-- C10: `max_length` is populated only on the string-group scalar arm; for
every other successful translation — relation fields included — the returned
metadata's `max_length` is `None`, even when the descriptor declares one. -/
theorem C10_max_length_only_string_group (f : DjField) (ty : PyType)
    (info : FieldInfo) (hok : DjangoField f = Except.ok (ty, info))
    (h : f.is_relation = true ∨ f.internal_type ∉ STR_TYPES) :
    info.max_length = none := by
  cases hrel : f.is_relation with
  | true =>
    rw [DjangoField_relation_ok f hrel] at hok
    simp only [Except.ok.injEq, Prod.mk.injEq] at hok
    obtain ⟨-, hinfo⟩ := hok
    subst hinfo
    rfl
  | false =>
    obtain ⟨-, hinfo⟩ := DjangoField_scalar_ok f ty info hrel hok
    subst hinfo
    show scalarMaxLength f = none
    rcases h with h | h
    · rw [hrel] at h
      exact absurd h (by simp)
    · unfold scalarMaxLength
      rw [if_neg h]

/-- Witness for C10 at the concrete `relationMaxLengthField`: the descriptor
declares `max_length = 50`, yet the relation branch returns `max_length =
None`. -/
theorem C10_witness :
    (relationMaxLengthField.is_relation = true ∧
     relationMaxLengthField.max_length = some 50) ∧
    ({ default := PyDefault.val PyVal.pyNone
       default_factory := none
       title := none
       description := none
       max_length := none } : FieldInfo).max_length = none :=
  ⟨⟨rfl, rfl⟩,
   C10_max_length_only_string_group relationMaxLengthField PyType.int
     { default := PyDefault.val PyVal.pyNone
       default_factory := none
       title := none
       description := none
       max_length := none } rfl (Or.inl rfl)⟩
